import Mathlib

/-!
Verification development for the mapant-fr-worker repository
(src/schemas.ts and src/main.ts, a Deno worker polling a job-dispatch
endpoint and running the lidar pipeline).

The embedding models:
  - JSON values and the zod schemas of src/schemas.ts (zod object parsing
    strips unknown keys and fails on missing or mistyped fields; the zod
    union tries its members in order and the first success wins);
  - the dispatch cycle of src/main.ts (getAndHandleNextJob) as a pure
    function over an environment that fixes the outcome of each external
    interaction (poll response, tile download, child-process runs), which
    yields the emitted effects, the resulting local filesystem and an
    optional uncaught exception escaping the cycle.
-/

namespace MapantWorker

/-- JSON values as produced by response.json(). JSON numbers are modelled
as integers: every numeric field of the job payloads is a tile coordinate,
and the number/string type distinction the schemas check is preserved. -/
inductive Json where
  | null
  | bool (b : Bool)
  | num (n : Int)
  | str (s : String)
  | arr (elems : List Json)
  | obj (fields : List (String × Json))
deriving Repr

/-- The decoded job union NextJobApiEndpointResponse of src/schemas.ts:
lidar, render, pyramid, or no-job-left. -/
inductive Job where
  | lidar (x y : Int) (tileUrl : String)
  | render (x y : Int)
  | pyramid (x y z : Int)
  | noJobLeft
deriving Repr, DecidableEq

/-- Scheme characters after the first: letter, digit, plus, minus, dot,
up to the terminating colon. Models WHATWG URL scheme syntax, which is
what zod's .url() check (new URL(...)) requires. -/
def hasSchemeColon : List Char → Bool
  | [] => false
  | c :: cs =>
    if c = ':' then true
    else (c.isAlpha || c.isDigit || c = '+' || c = '-' || c = '.') && hasSchemeColon cs

/-- Model of the zod .url() validation (success of the WHATWG URL
constructor): the string starts with an ASCII-letter-led scheme followed
by a colon. -/
def isValidUrl (s : String) : Bool :=
  match s.toList with
  | [] => false
  | c :: rest => c.isAlpha && hasSchemeColon rest

/-- lidarJobSchema of src/schemas.ts: an object with type: "lidar" and
data containing numeric x, y and a URL-valid string tileUrl. Unknown keys
are ignored (zod object default). -/
def lidarJobSchema (j : Json) : Option Job :=
  match j with
  | .obj fields =>
    match fields.lookup "type", fields.lookup "data" with
    | some (.str "lidar"), some (.obj d) =>
      match d.lookup "x", d.lookup "y", d.lookup "tileUrl" with
      | some (.num x), some (.num y), some (.str u) =>
        if isValidUrl u then some (.lidar x y u) else none
      | _, _, _ => none
    | _, _ => none
  | _ => none

/-- renderJobSchema of src/schemas.ts. -/
def renderJobSchema (j : Json) : Option Job :=
  match j with
  | .obj fields =>
    match fields.lookup "type", fields.lookup "data" with
    | some (.str "render"), some (.obj d) =>
      match d.lookup "x", d.lookup "y" with
      | some (.num x), some (.num y) => some (.render x y)
      | _, _ => none
    | _, _ => none
  | _ => none

/-- pyramidJobSchema of src/schemas.ts. -/
def pyramidJobSchema (j : Json) : Option Job :=
  match j with
  | .obj fields =>
    match fields.lookup "type", fields.lookup "data" with
    | some (.str "pyramid"), some (.obj d) =>
      match d.lookup "x", d.lookup "y", d.lookup "z" with
      | some (.num x), some (.num y), some (.num z) => some (.pyramid x y z)
      | _, _, _ => none
    | _, _ => none
  | _ => none

/-- noJobSchema of src/schemas.ts: an object with type: "no-job-left". -/
def noJobSchema (j : Json) : Option Job :=
  match j with
  | .obj fields =>
    match fields.lookup "type" with
    | some (.str "no-job-left") => some .noJobLeft
    | _ => none
  | _ => none

/-- nextJobApiEndpointResponseSchema of src/schemas.ts: the zod union of
the four job schemas, tried in order, first success wins (the safeParse
of src/main.ts). -/
def nextJobApiEndpointResponseSchema (j : Json) : Option Job :=
  match lidarJobSchema j with
  | some jb => some jb
  | none =>
    match renderJobSchema j with
    | some jb => some jb
    | none =>
      match pyramidJobSchema j with
      | some jb => some jb
      | none => noJobSchema j

/-- Outcome of the poll fetch in getAndHandleNextJob: either the fetch
promise rejects (network error), or a response arrives with an HTTP
status, a status text, and a JSON body (none when response.json()
rejects because the body is not valid JSON). -/
inductive PollOutcome where
  | fetchError
  | response (status : Nat) (statusText : String) (body : Option Json)
deriving Repr

/-- Response.ok of the Fetch API: status in the inclusive range 200-299. -/
def statusOk (status : Nat) : Bool :=
  decide (200 ≤ status) && decide (status < 300)

/-- A node of the local filesystem: a directory or a file with byte
content. -/
inductive FsNode where
  | dir
  | file (content : List Nat)
deriving Repr, DecidableEq

/-- The local filesystem as an association list from path to node; the
first binding of a path is the current one. -/
abbrev Fs := List (String × FsNode)

/-- Observable effects of one dispatch cycle: console logging, the
setTimeout retry scheduling, directory creation, the tile fetch and
child-process invocations. -/
inductive Effect where
  | logError (msg : String)
  | logWarn (msg : String)
  | log (msg : String)
  | logBytes (bytes : List Nat)
  | scheduleRetry (delayMs : Nat)
  | mkdirRecursive (path : String)
  | fetchGet (url : String)
  | exec (cmd : String) (args : List String)
deriving Repr, DecidableEq

/-- An exception escaping getAndHandleNextJob uncaught: the poll fetch
rejecting, response.json() rejecting, the Error thrown by
downloadFileToDisk, or Deno.Command failing to spawn. -/
inductive Crash where
  | pollFetchError
  | jsonBodyError
  | transferError (url : String)
  | spawnError (cmd : String)
deriving Repr, DecidableEq

/-- Environment of one dispatch cycle: the working directory, the poll
outcome, the filesystem at cycle start, the tile download body (none
when the tile fetch is not ok or has no body, which makes
downloadFileToDisk throw), and the outcomes of the two child processes
(none models a spawn failure; otherwise exit code, stdout bytes, stderr
bytes). -/
structure Env where
  cwd : String
  poll : PollOutcome
  fs : Fs
  tileBody : Option (List Nat)
  cassiniOutcome : Option (Int × List Nat × List Nat)
  tarOutcome : Option (Int × List Nat × List Nat)

/-- Result of one dispatch cycle: the effects emitted, the filesystem at
cycle end, and the uncaught exception if one escaped the cycle. -/
structure CycleResult where
  effects : List Effect
  fs : Fs
  crash : Option Crash
deriving Repr

/-- createDirIfItDoenstExist of src/main.ts: Deno.lstat succeeds when the
path exists and nothing further happens; on NotFound, Deno.mkdir with
recursive: true creates the directory. -/
def createDirIfItDoenstExist (fs : Fs) (dirPath : String) : Fs × List Effect :=
  match fs.lookup dirPath with
  | some _ => (fs, [])
  | none => ((dirPath, .dir) :: fs, [.mkdirRecursive dirPath])

/-- join of jsr:@std/path applied to plain relative segments, as in
src/main.ts: the segments joined with a slash. -/
def pjoin (a b : String) : String := a ++ "/" ++ b

/-- Splitting a character list at every slash, keeping empty segments:
the semantics of the JS String.prototype.split with separator "/". -/
def splitSlashAux : List Char → List (List Char)
  | [] => [[]]
  | c :: cs =>
    match splitSlashAux cs with
    | [] => [[]]
    | r :: rs => if c = '/' then [] :: r :: rs else (c :: r) :: rs

/-- The JS expression s.split("/") used in src/main.ts line 66. -/
def jsSplitSlash (s : String) : List String :=
  (splitSlashAux s.toList).map (fun l => String.mk l)

/-- The local input filename derived in src/main.ts line 66:
tileUrl.split("/").reverse()[0]. -/
def tileFileName (url : String) : String :=
  ((jsSplitSlash url).reverse).headD ""

/-- The output directory derived in src/main.ts lines 60-63:
join("lidar-step", x + "_" + y) with the coordinates printed as JS
numbers. -/
def outDirPath (x y : Int) : String :=
  pjoin "lidar-step" (toString x ++ "_" ++ toString y)

/-- downloadFileToDisk of src/main.ts: fetch the url; if the response is
not ok or has no body, throw (the cycle has no catch, so this escapes).
Otherwise Deno.open the destination with create and write but WITHOUT
truncate (the Deno default is truncate: false), so the body bytes are
written from position 0 over the existing content and any longer
remnant of the old content survives past the end of the new bytes. -/
def downloadFileToDisk (fs : Fs) (url filePath : String)
    (tileBody : Option (List Nat)) : Fs × List Effect × Option Crash :=
  match tileBody with
  | none => (fs, [.fetchGet url], some (.transferError url))
  | some bytes =>
    let old := match fs.lookup filePath with
      | some (.file c) => c
      | _ => []
    ((filePath, .file (bytes ++ old.drop bytes.length)) :: fs,
     [.fetchGet url], none)

/-- executeCommand of src/main.ts: spawn the command with the argument
vector via Deno.Command and await output(). output() resolves with
code, stdout and stderr whatever the exit code and rejects only when the
command cannot be spawned. The function logs stderr when the code is
non-zero and stdout otherwise, and returns only the exit code. -/
def executeCommand (command : String) (args : List String)
    (outcome : Option (Int × List Nat × List Nat)) :
    List Effect × Except Crash Int :=
  match outcome with
  | none => ([.exec command args], .error (.spawnError command))
  | some (code, out, err) =>
    ([.exec command args, .logBytes (if code ≠ 0 then err else out)], .ok code)

/-- runCassiniInDocker of src/main.ts: docker run --rm -v cwd:/app
nicorio42/cassini with the given subcommand arguments. -/
def runCassiniInDocker (cwd : String) (args : List String)
    (outcome : Option (Int × List Nat × List Nat)) :
    List Effect × Except Crash Int :=
  executeCommand "docker"
    (["run", "--rm", "-v", cwd ++ ":/app", "nicorio42/cassini"] ++ args)
    outcome

/-- compressDir of src/main.ts: archive inputDirectoryPath into
outputDirectoryPath/fileName.tar.bz2 via tar -cjvf, returning the
archive path alongside the exit of the tar invocation. -/
def compressDir (inputDirectoryPath outputDirectoryPath fileName : String)
    (outcome : Option (Int × List Nat × List Nat)) :
    String × (List Effect × Except Crash Int) :=
  let archivePath := pjoin outputDirectoryPath (fileName ++ ".tar.bz2")
  (archivePath, executeCommand "tar" ["-cjvf", archivePath, inputDirectoryPath] outcome)

/-- The lidar branch of getAndHandleNextJob (src/main.ts lines 57-90),
after decoding produced a lidar job. -/
def handleLidarJob (env : Env) (x y : Int) (tileUrl : String) : CycleResult :=
  let (fs1, eff1) := createDirIfItDoenstExist env.fs "lidar-files"
  let outDir := outDirPath x y
  let (fs2, eff2) := createDirIfItDoenstExist fs1 "lidar-step"
  let fileName := tileFileName tileUrl
  let filePath := pjoin "lidar-files" fileName
  let effPre := eff1 ++ eff2 ++ [.log ("Downloading lidar file: " ++ fileName)]
  let (fs3, effDl, dlCrash) := downloadFileToDisk fs2 tileUrl filePath env.tileBody
  match dlCrash with
  | some c => ⟨effPre ++ effDl, fs3, some c⟩
  | none =>
    let effRun := effPre ++ effDl ++ [.log "Running cassini lidar subcommand"]
    let (effC, cassiniRes) :=
      runCassiniInDocker env.cwd ["lidar", filePath, "-o", outDir] env.cassiniOutcome
    match cassiniRes with
    | .error c => ⟨effRun ++ effC, fs3, some c⟩
    | .ok exitCode =>
      if exitCode ≠ 0 then ⟨effRun ++ effC, fs3, none⟩
      else
        let effCmp := effRun ++ effC ++ [.log "Compressing lidar step files"]
        let (_, (effT, tarRes)) :=
          compressDir outDir "lidar-step" (toString x ++ "_" ++ toString y) env.tarOutcome
        match tarRes with
        | .error c => ⟨effCmp ++ effT, fs3, some c⟩
        | .ok _ => ⟨effCmp ++ effT, fs3, none⟩

/-- getAndHandleNextJob of src/main.ts: poll the next-job endpoint, stop
cleanly on a non-ok status or an undecodable body, schedule one retry in
two minutes on no-job-left, run the lidar pipeline on a lidar job, and
do nothing for the stub render and pyramid branches. The crash component
records the exceptions nothing in the cycle catches. -/
def getAndHandleNextJob (env : Env) : CycleResult :=
  match env.poll with
  | .fetchError => ⟨[], env.fs, some .pollFetchError⟩
  | .response status statusText body =>
    if !statusOk status then
      ⟨[.logError "Failed to call mapant generation \"next-job\" endpoint",
        .logError (toString status), .logError statusText], env.fs, none⟩
    else
      match body with
      | none => ⟨[], env.fs, some .jsonBodyError⟩
      | some raw =>
        match nextJobApiEndpointResponseSchema raw with
        | none => ⟨[.logError "Not expected next-job endpoint response"], env.fs, none⟩
        | some .noJobLeft =>
          ⟨[.logWarn "No job left, retrying in 2 minutes",
            .scheduleRetry (2 * 60 * 1000)], env.fs, none⟩
        | some (.lidar x y tileUrl) => handleLidarJob env x y tileUrl
        | some (.render _ _) => ⟨[], env.fs, none⟩
        | some (.pyramid _ _ _) => ⟨[], env.fs, none⟩

/-- The spec-side reading of the lidar shape (spec section 3 and 4.1): an
object whose type discriminant is the literal "lidar" and whose data
object carries numeric x and y and a URL-valid string tileUrl; the
decoded fields are exactly those of the document. -/
def LidarShaped (j : Json) (x y : Int) (u : String) : Prop :=
  ∃ fields d, j = .obj fields ∧
    fields.lookup "type" = some (.str "lidar") ∧
    fields.lookup "data" = some (.obj d) ∧
    d.lookup "x" = some (.num x) ∧
    d.lookup "y" = some (.num y) ∧
    d.lookup "tileUrl" = some (.str u) ∧
    isValidUrl u = true

/-- The spec-side reading of the render shape. -/
def RenderShaped (j : Json) (x y : Int) : Prop :=
  ∃ fields d, j = .obj fields ∧
    fields.lookup "type" = some (.str "render") ∧
    fields.lookup "data" = some (.obj d) ∧
    d.lookup "x" = some (.num x) ∧
    d.lookup "y" = some (.num y)

/-- The spec-side reading of the pyramid shape. -/
def PyramidShaped (j : Json) (x y z : Int) : Prop :=
  ∃ fields d, j = .obj fields ∧
    fields.lookup "type" = some (.str "pyramid") ∧
    fields.lookup "data" = some (.obj d) ∧
    d.lookup "x" = some (.num x) ∧
    d.lookup "y" = some (.num y) ∧
    d.lookup "z" = some (.num z)

/-- The spec-side reading of the no-job-left shape. -/
def NoJobShaped (j : Json) : Prop :=
  ∃ fields, j = .obj fields ∧
    fields.lookup "type" = some (.str "no-job-left")

/-- Whether an effect is the setTimeout rescheduling of the cycle. -/
def isRetryEffect : Effect → Bool
  | .scheduleRetry _ => true
  | _ => false

/-- The retry-scheduling effects emitted by one dispatch cycle. -/
def retryEffects (env : Env) : List Effect :=
  (getAndHandleNextJob env).effects.filter isRetryEffect

/-- Number of pending retry timers after each timer-driven cycle: a cycle
starting because its timer fired consumes that pending timer and adds
the retries it schedules. -/
def pendingAfter : Nat → List Env → List Nat
  | _, [] => []
  | p, e :: es =>
    let q := p - 1 + (retryEffects e).length
    q :: pendingAfter q es

/-- Number of pending retry timers after each cycle of a whole run: the
first cycle is the external invocation at startup (nothing pending); each
later cycle is driven by a pending timer firing. -/
def pendingRun (e0 : Env) (es : List Env) : List Nat :=
  (retryEffects e0).length :: pendingAfter (retryEffects e0).length es

/-- ExecutionResult of spec section 3: exit code plus the captured
standard-output and standard-error bytes. -/
structure ExecutionResult where
  code : Int
  stdout : List Nat
  stderr : List Nat
deriving Repr, DecidableEq

/-- Modelled from the spec (section 4.2): the External Process Runner
contract run(command, args) returning the full ExecutionResult — exit
code together with both captured streams — to the caller, failing only
when the command cannot be spawned. Stated for comparison with
executeCommand, which is the code. -/
def runSpec (command : String) (_args : List String)
    (outcome : Option (Int × List Nat × List Nat)) :
    Except Crash ExecutionResult :=
  match outcome with
  | none => .error (.spawnError command)
  | some (code, out, err) => .ok ⟨code, out, err⟩

/-- A well-formed lidar job document used as concrete input. -/
def lidarJobDoc : Json :=
  .obj [("type", .str "lidar"),
        ("data", .obj [("x", .num 42), ("y", .num 7),
                       ("tileUrl", .str "https://example.com/tiles/42_7.bin")])]

/-- A no-job-left document used as concrete input. -/
def noJobDoc : Json :=
  .obj [("type", .str "no-job-left")]

/-- A cycle whose poll returns 200 with a no-job-left body. -/
def envNoJob : Env :=
  ⟨"/work", .response 200 "OK" (some noJobDoc), [], none, none, none⟩

/-- A cycle whose poll returns HTTP 500. -/
def envPoll500 : Env :=
  ⟨"/work", .response 500 "Internal Server Error" none, [], none, none, none⟩

/-- A cycle whose poll fetch itself rejects (network error). -/
def envFetchErr : Env :=
  ⟨"/work", .fetchError, [], none, none, none⟩

/-- A lidar cycle whose tile download fails (tile fetch not ok). -/
def envLidarDownloadFail : Env :=
  ⟨"/work", .response 200 "OK" (some lidarJobDoc), [], none, none, none⟩

/-- A lidar cycle where the tile downloads but the cassini container
exits with code 1. -/
def envLidarCassiniFail : Env :=
  ⟨"/work", .response 200 "OK" (some lidarJobDoc), [], some [1, 2, 3],
   some (1, [], [101]), none⟩

/-- A lidar cycle where every step succeeds. -/
def envLidarOk : Env :=
  ⟨"/work", .response 200 "OK" (some lidarJobDoc), [], some [1, 2, 3],
   some (0, [10], []), some (0, [11], [])⟩

/-- A filesystem already holding a longer tile file at the download
destination. -/
def fsWithOldTile : Fs :=
  [("lidar-files/42_7.bin", .file [1, 2, 3, 4, 5])]

lemma lidarJobSchema_eq_some_iff (j : Json) (jb : Job) :
    lidarJobSchema j = some jb ↔
      ∃ x y u, jb = Job.lidar x y u ∧ LidarShaped j x y u := by
  constructor
  · intro h
    cases j with
    | obj fields =>
      unfold lidarJobSchema at h
      split at h <;> try simp_all
      split at h <;> try simp_all
      split at h <;> try simp_all
      all_goals
        obtain ⟨hurl, rfl⟩ := h
        unfold LidarShaped
        aesop
    | _ => simp [lidarJobSchema] at h
  · rintro ⟨x, y, u, rfl, fields, d, rfl, h1, h2, h3, h4, h5, h6⟩
    simp [lidarJobSchema, h1, h2, h3, h4, h5, h6]

lemma renderJobSchema_eq_some_iff (j : Json) (jb : Job) :
    renderJobSchema j = some jb ↔
      ∃ x y, jb = Job.render x y ∧ RenderShaped j x y := by
  constructor
  · intro h
    cases j with
    | obj fields =>
      unfold renderJobSchema at h
      split at h <;> try simp_all
      split at h <;> try simp_all
      all_goals
        unfold RenderShaped
        aesop
    | _ => simp [renderJobSchema] at h
  · rintro ⟨x, y, rfl, fields, d, rfl, h1, h2, h3, h4⟩
    simp [renderJobSchema, h1, h2, h3, h4]

lemma pyramidJobSchema_eq_some_iff (j : Json) (jb : Job) :
    pyramidJobSchema j = some jb ↔
      ∃ x y z, jb = Job.pyramid x y z ∧ PyramidShaped j x y z := by
  constructor
  · intro h
    cases j with
    | obj fields =>
      unfold pyramidJobSchema at h
      split at h <;> try simp_all
      split at h <;> try simp_all
      all_goals
        unfold PyramidShaped
        aesop
    | _ => simp [pyramidJobSchema] at h
  · rintro ⟨x, y, z, rfl, fields, d, rfl, h1, h2, h3, h4, h5⟩
    simp [pyramidJobSchema, h1, h2, h3, h4, h5]

lemma noJobSchema_eq_some_iff (j : Json) (jb : Job) :
    noJobSchema j = some jb ↔ jb = Job.noJobLeft ∧ NoJobShaped j := by
  constructor
  · intro h
    cases j with
    | obj fields =>
      unfold noJobSchema at h
      split at h <;> try simp_all
      all_goals
        unfold NoJobShaped
        aesop
    | _ => simp [noJobSchema] at h
  · rintro ⟨rfl, fields, rfl, h1⟩
    simp [noJobSchema, h1]

/-- The discriminant tag of a JSON document: an object whose type field
is the string t. -/
def TypeTag (j : Json) (t : String) : Prop :=
  ∃ fields, j = .obj fields ∧ fields.lookup "type" = some (.str t)

lemma lidarShaped_typeTag {j : Json} {x y : Int} {u : String}
    (h : LidarShaped j x y u) : TypeTag j "lidar" := by
  obtain ⟨fields, d, rfl, ht, -⟩ := h
  exact ⟨fields, rfl, ht⟩

lemma renderShaped_typeTag {j : Json} {x y : Int}
    (h : RenderShaped j x y) : TypeTag j "render" := by
  obtain ⟨fields, d, rfl, ht, -⟩ := h
  exact ⟨fields, rfl, ht⟩

lemma pyramidShaped_typeTag {j : Json} {x y z : Int}
    (h : PyramidShaped j x y z) : TypeTag j "pyramid" := by
  obtain ⟨fields, d, rfl, ht, -⟩ := h
  exact ⟨fields, rfl, ht⟩

lemma noJobShaped_typeTag {j : Json}
    (h : NoJobShaped j) : TypeTag j "no-job-left" := by
  obtain ⟨fields, rfl, ht⟩ := h
  exact ⟨fields, rfl, ht⟩

lemma typeTag_unique {j : Json} {t t' : String}
    (h : TypeTag j t) (h' : TypeTag j t') : t = t' := by
  obtain ⟨fields, rfl, ht⟩ := h
  obtain ⟨fields', hj, ht'⟩ := h'
  injection hj with hf
  subst hf
  rw [ht] at ht'
  simp_all

lemma lidarJobSchema_eq_none {j : Json}
    (h : ∀ x y u, ¬ LidarShaped j x y u) : lidarJobSchema j = none := by
  cases hopt : lidarJobSchema j with
  | none => rfl
  | some jb =>
    obtain ⟨x, y, u, rfl, hs⟩ := (lidarJobSchema_eq_some_iff j jb).mp hopt
    exact absurd hs (h x y u)

lemma renderJobSchema_eq_none {j : Json}
    (h : ∀ x y, ¬ RenderShaped j x y) : renderJobSchema j = none := by
  cases hopt : renderJobSchema j with
  | none => rfl
  | some jb =>
    obtain ⟨x, y, rfl, hs⟩ := (renderJobSchema_eq_some_iff j jb).mp hopt
    exact absurd hs (h x y)

lemma pyramidJobSchema_eq_none {j : Json}
    (h : ∀ x y z, ¬ PyramidShaped j x y z) : pyramidJobSchema j = none := by
  cases hopt : pyramidJobSchema j with
  | none => rfl
  | some jb =>
    obtain ⟨x, y, z, rfl, hs⟩ := (pyramidJobSchema_eq_some_iff j jb).mp hopt
    exact absurd hs (h x y z)

lemma lidarJobSchema_eq_none_of_typeTag {j : Json} {t : String}
    (h : TypeTag j t) (hne : t ≠ "lidar") : lidarJobSchema j = none :=
  lidarJobSchema_eq_none fun _ _ _ hl =>
    hne (typeTag_unique h (lidarShaped_typeTag hl))

lemma renderJobSchema_eq_none_of_typeTag {j : Json} {t : String}
    (h : TypeTag j t) (hne : t ≠ "render") : renderJobSchema j = none :=
  renderJobSchema_eq_none fun _ _ hr =>
    hne (typeTag_unique h (renderShaped_typeTag hr))

lemma pyramidJobSchema_eq_none_of_typeTag {j : Json} {t : String}
    (h : TypeTag j t) (hne : t ≠ "pyramid") : pyramidJobSchema j = none :=
  pyramidJobSchema_eq_none fun _ _ _ hp =>
    hne (typeTag_unique h (pyramidShaped_typeTag hp))

lemma decode_eq_lidar_iff (j : Json) (x y : Int) (u : String) :
    nextJobApiEndpointResponseSchema j = some (Job.lidar x y u) ↔
      LidarShaped j x y u := by
  constructor
  · intro h
    unfold nextJobApiEndpointResponseSchema at h
    split at h
    · next jb heq =>
      obtain ⟨x', y', u', rfl, hs⟩ := (lidarJobSchema_eq_some_iff j jb).mp heq
      simp only [Option.some.injEq, Job.lidar.injEq] at h
      obtain ⟨rfl, rfl, rfl⟩ := h
      exact hs
    · split at h
      · next jb heq =>
        obtain ⟨x', y', rfl, -⟩ := (renderJobSchema_eq_some_iff j jb).mp heq
        simp at h
      · split at h
        · next jb heq =>
          obtain ⟨x', y', z', rfl, -⟩ := (pyramidJobSchema_eq_some_iff j jb).mp heq
          simp at h
        · exact absurd ((noJobSchema_eq_some_iff j _).mp h).1 (by simp)
  · intro hs
    have hl : lidarJobSchema j = some (.lidar x y u) :=
      (lidarJobSchema_eq_some_iff j _).mpr ⟨x, y, u, rfl, hs⟩
    simp [nextJobApiEndpointResponseSchema, hl]

lemma decode_eq_render_iff (j : Json) (x y : Int) :
    nextJobApiEndpointResponseSchema j = some (Job.render x y) ↔
      RenderShaped j x y := by
  constructor
  · intro h
    unfold nextJobApiEndpointResponseSchema at h
    split at h
    · next jb heq =>
      obtain ⟨x', y', u', rfl, -⟩ := (lidarJobSchema_eq_some_iff j jb).mp heq
      simp at h
    · split at h
      · next jb heq =>
        obtain ⟨x', y', rfl, hs⟩ := (renderJobSchema_eq_some_iff j jb).mp heq
        simp only [Option.some.injEq, Job.render.injEq] at h
        obtain ⟨rfl, rfl⟩ := h
        exact hs
      · split at h
        · next jb heq =>
          obtain ⟨x', y', z', rfl, -⟩ := (pyramidJobSchema_eq_some_iff j jb).mp heq
          simp at h
        · exact absurd ((noJobSchema_eq_some_iff j _).mp h).1 (by simp)
  · intro hs
    have hnl : lidarJobSchema j = none :=
      lidarJobSchema_eq_none_of_typeTag (renderShaped_typeTag hs) (by decide)
    have hr : renderJobSchema j = some (.render x y) :=
      (renderJobSchema_eq_some_iff j _).mpr ⟨x, y, rfl, hs⟩
    simp [nextJobApiEndpointResponseSchema, hnl, hr]

lemma decode_eq_pyramid_iff (j : Json) (x y z : Int) :
    nextJobApiEndpointResponseSchema j = some (Job.pyramid x y z) ↔
      PyramidShaped j x y z := by
  constructor
  · intro h
    unfold nextJobApiEndpointResponseSchema at h
    split at h
    · next jb heq =>
      obtain ⟨x', y', u', rfl, -⟩ := (lidarJobSchema_eq_some_iff j jb).mp heq
      simp at h
    · split at h
      · next jb heq =>
        obtain ⟨x', y', rfl, -⟩ := (renderJobSchema_eq_some_iff j jb).mp heq
        simp at h
      · split at h
        · next jb heq =>
          obtain ⟨x', y', z', rfl, hs⟩ := (pyramidJobSchema_eq_some_iff j jb).mp heq
          simp only [Option.some.injEq, Job.pyramid.injEq] at h
          obtain ⟨rfl, rfl, rfl⟩ := h
          exact hs
        · exact absurd ((noJobSchema_eq_some_iff j _).mp h).1 (by simp)
  · intro hs
    have hnl : lidarJobSchema j = none :=
      lidarJobSchema_eq_none_of_typeTag (pyramidShaped_typeTag hs) (by decide)
    have hnr : renderJobSchema j = none :=
      renderJobSchema_eq_none_of_typeTag (pyramidShaped_typeTag hs) (by decide)
    have hp : pyramidJobSchema j = some (.pyramid x y z) :=
      (pyramidJobSchema_eq_some_iff j _).mpr ⟨x, y, z, rfl, hs⟩
    simp [nextJobApiEndpointResponseSchema, hnl, hnr, hp]

lemma decode_eq_noJob_iff (j : Json) :
    nextJobApiEndpointResponseSchema j = some Job.noJobLeft ↔ NoJobShaped j := by
  constructor
  · intro h
    unfold nextJobApiEndpointResponseSchema at h
    split at h
    · next jb heq =>
      obtain ⟨x', y', u', rfl, -⟩ := (lidarJobSchema_eq_some_iff j jb).mp heq
      simp at h
    · split at h
      · next jb heq =>
        obtain ⟨x', y', rfl, -⟩ := (renderJobSchema_eq_some_iff j jb).mp heq
        simp at h
      · split at h
        · next jb heq =>
          obtain ⟨x', y', z', rfl, -⟩ := (pyramidJobSchema_eq_some_iff j jb).mp heq
          simp at h
        · exact ((noJobSchema_eq_some_iff j _).mp h).2
  · intro hs
    have hnl : lidarJobSchema j = none :=
      lidarJobSchema_eq_none_of_typeTag (noJobShaped_typeTag hs) (by decide)
    have hnr : renderJobSchema j = none :=
      renderJobSchema_eq_none_of_typeTag (noJobShaped_typeTag hs) (by decide)
    have hnp : pyramidJobSchema j = none :=
      pyramidJobSchema_eq_none_of_typeTag (noJobShaped_typeTag hs) (by decide)
    have hn : noJobSchema j = some .noJobLeft :=
      (noJobSchema_eq_some_iff j _).mpr ⟨rfl, hs⟩
    simp [nextJobApiEndpointResponseSchema, hnl, hnr, hnp, hn]

lemma decode_eq_none_iff (j : Json) :
    nextJobApiEndpointResponseSchema j = none ↔
      (∀ x y u, ¬ LidarShaped j x y u) ∧ (∀ x y, ¬ RenderShaped j x y) ∧
      (∀ x y z, ¬ PyramidShaped j x y z) ∧ ¬ NoJobShaped j := by
  constructor
  · intro h
    refine ⟨fun x y u hs => ?_, fun x y hs => ?_, fun x y z hs => ?_, fun hs => ?_⟩
    · have := (decode_eq_lidar_iff j x y u).mpr hs
      simp_all
    · have := (decode_eq_render_iff j x y).mpr hs
      simp_all
    · have := (decode_eq_pyramid_iff j x y z).mpr hs
      simp_all
    · have := (decode_eq_noJob_iff j).mpr hs
      simp_all
  · rintro ⟨h1, h2, h3, h4⟩
    cases hd : nextJobApiEndpointResponseSchema j with
    | none => rfl
    | some jb =>
      exfalso
      cases jb with
      | lidar x y u => exact h1 x y u ((decode_eq_lidar_iff j x y u).mp hd)
      | render x y => exact h2 x y ((decode_eq_render_iff j x y).mp hd)
      | pyramid x y z => exact h3 x y z ((decode_eq_pyramid_iff j x y z).mp hd)
      | noJobLeft => exact h4 ((decode_eq_noJob_iff j).mp hd)

lemma handleLidarJob_no_retry (env : Env) (x y : Int) (u : String) :
    (handleLidarJob env x y u).effects.filter isRetryEffect = [] := by
  rcases env with ⟨cwd, poll, fs, tileBody, cassini, tar⟩
  cases hl1 : List.lookup "lidar-files" fs <;>
    cases hl2 : List.lookup "lidar-step" fs <;>
      cases tileBody <;>
        rcases cassini with _ | ⟨code, out, err⟩ <;>
          rcases tar with _ | ⟨tcode, tout, terr⟩ <;>
            simp [handleLidarJob, createDirIfItDoenstExist, downloadFileToDisk,
                  runCassiniInDocker, executeCommand, compressDir, isRetryEffect,
                  hl1, hl2, List.lookup] <;>
              split <;> simp [isRetryEffect]

lemma handleLidarJob_crash (env : Env) (x y : Int) (u : String) :
    (handleLidarJob env x y u).crash =
      (match env.tileBody with
       | none => some (.transferError u)
       | some _ =>
         match env.cassiniOutcome with
         | none => some (.spawnError "docker")
         | some (code, _, _) =>
           if code ≠ 0 then none
           else
             match env.tarOutcome with
             | none => some (.spawnError "tar")
             | some _ => none) := by
  rcases env with ⟨cwd, poll, fs, tileBody, cassini, tar⟩
  cases hl1 : List.lookup "lidar-files" fs <;>
    cases hl2 : List.lookup "lidar-step" fs <;>
      cases tileBody <;>
        rcases cassini with _ | ⟨code, out, err⟩ <;>
          rcases tar with _ | ⟨tcode, tout, terr⟩ <;>
            simp [handleLidarJob, createDirIfItDoenstExist, downloadFileToDisk,
                  runCassiniInDocker, executeCommand, compressDir,
                  hl1, hl2, List.lookup] <;>
              split <;> simp

lemma handleLidarJob_no_tar (env : Env) (x y : Int) (u : String)
    (code : Int) (out err : List Nat)
    (hc : env.cassiniOutcome = some (code, out, err)) (hcz : code ≠ 0) :
    ∀ args, Effect.exec "tar" args ∉ (handleLidarJob env x y u).effects := by
  intro args
  rcases env with ⟨cwd, poll, fs, tileBody, cassini, tar⟩
  simp only [Env.cassiniOutcome] at hc
  subst hc
  cases hl1 : List.lookup "lidar-files" fs <;>
    cases hl2 : List.lookup "lidar-step" fs <;>
      cases tileBody <;>
        rcases tar with _ | ⟨tcode, tout, terr⟩ <;>
          simp [handleLidarJob, createDirIfItDoenstExist, downloadFileToDisk,
                runCassiniInDocker, executeCommand, compressDir,
                hl1, hl2, List.lookup, hcz]

lemma retryEffects_length_le_one (env : Env) : (retryEffects env).length ≤ 1 := by
  unfold retryEffects
  cases hp : env.poll with
  | fetchError => simp [getAndHandleNextJob, hp, isRetryEffect]
  | response st stx body =>
    cases hok : statusOk st with
    | false => simp [getAndHandleNextJob, hp, hok, isRetryEffect]
    | true =>
      cases body with
      | none => simp [getAndHandleNextJob, hp, hok, isRetryEffect]
      | some raw =>
        cases hd : nextJobApiEndpointResponseSchema raw with
        | none => simp [getAndHandleNextJob, hp, hok, hd, isRetryEffect]
        | some jb =>
          cases jb with
          | lidar x y u =>
            have h := handleLidarJob_no_retry env x y u
            simp [getAndHandleNextJob, hp, hok, hd, h]
          | render x y => simp [getAndHandleNextJob, hp, hok, hd, isRetryEffect]
          | pyramid x y z => simp [getAndHandleNextJob, hp, hok, hd, isRetryEffect]
          | noJobLeft => simp [getAndHandleNextJob, hp, hok, hd, isRetryEffect]

lemma retryEffects_of_noJobLeft (env : Env) (st : Nat) (stx : String) (raw : Json)
    (hp : env.poll = .response st stx (some raw)) (hok : statusOk st = true)
    (hd : nextJobApiEndpointResponseSchema raw = some Job.noJobLeft) :
    retryEffects env = [Effect.scheduleRetry (2 * 60 * 1000)] := by
  simp [retryEffects, getAndHandleNextJob, hp, hok, hd, isRetryEffect]

lemma pendingAfter_le_one (p : Nat) (es : List Env) (hp : p ≤ 1) :
    ∀ q ∈ pendingAfter p es, q ≤ 1 := by
  induction es generalizing p with
  | nil => simp [pendingAfter]
  | cons e es ih =>
    intro q hq
    simp only [pendingAfter, List.mem_cons] at hq
    have hr := retryEffects_length_le_one e
    rcases hq with rfl | hq
    · omega
    · exact ih (p - 1 + (retryEffects e).length) (by omega) q hq

/-- C1: a JSON document matching one of the four job shapes — correct
discriminant, numeric fields as numbers, tileUrl a syntactically valid
URL — decodes to the corresponding typed Job with all fields preserved
exactly, and a document matching none of the shapes (or mistyping or
missing a required field) decodes to a failure, never a partially
populated job. -/
theorem C1_decode_faithful (j : Json) :
    (∀ x y u, nextJobApiEndpointResponseSchema j = some (Job.lidar x y u) ↔
      LidarShaped j x y u)
  ∧ (∀ x y, nextJobApiEndpointResponseSchema j = some (Job.render x y) ↔
      RenderShaped j x y)
  ∧ (∀ x y z, nextJobApiEndpointResponseSchema j = some (Job.pyramid x y z) ↔
      PyramidShaped j x y z)
  ∧ (nextJobApiEndpointResponseSchema j = some Job.noJobLeft ↔ NoJobShaped j)
  ∧ (nextJobApiEndpointResponseSchema j = none ↔
      (∀ x y u, ¬ LidarShaped j x y u) ∧ (∀ x y, ¬ RenderShaped j x y) ∧
      (∀ x y z, ¬ PyramidShaped j x y z) ∧ ¬ NoJobShaped j) :=
  ⟨decode_eq_lidar_iff j, decode_eq_render_iff j, decode_eq_pyramid_iff j,
   decode_eq_noJob_iff j, decode_eq_none_iff j⟩

/-- C3: a cycle decoding no-job-left schedules exactly one re-invocation
after the fixed 2-minute delay, no cycle schedules more than one retry,
and along any run (one external start, later cycles driven by the
pending timer firing) at most one retry is pending at any time. -/
theorem C3_noJobLeft_single_retry :
    (∀ env : Env, (retryEffects env).length ≤ 1)
  ∧ (∀ (env : Env) (st : Nat) (stx : String) (raw : Json),
      env.poll = .response st stx (some raw) → statusOk st = true →
      nextJobApiEndpointResponseSchema raw = some Job.noJobLeft →
      retryEffects env = [Effect.scheduleRetry (2 * 60 * 1000)])
  ∧ (∀ (e0 : Env) (es : List Env), ∀ p ∈ pendingRun e0 es, p ≤ 1) := by
  refine ⟨retryEffects_length_le_one, retryEffects_of_noJobLeft, ?_⟩
  intro e0 es p hp
  have h0 := retryEffects_length_le_one e0
  simp only [pendingRun, List.mem_cons] at hp
  rcases hp with rfl | hp
  · exact h0
  · exact pendingAfter_le_one _ es h0 p hp

/-- C3 witness: the no-job-left cycle at a concrete 200 response
schedules exactly the one 2-minute retry. -/
theorem C3_witness :
    retryEffects envNoJob = [Effect.scheduleRetry (2 * 60 * 1000)] :=
  C3_noJobLeft_single_retry.2.1 envNoJob 200 "OK" noJobDoc rfl rfl rfl

/-- C4: in a lidar cycle whose cassini invocation exits with a non-zero
code, the tar archiver invocation never appears among the cycle effects:
the cycle returns before compressDir runs. -/
theorem C4_nonzero_tool_exit_skips_archiver :
    ∀ (env : Env) (st : Nat) (stx : String) (raw : Json) (x y : Int)
      (u : String) (code : Int) (out err : List Nat),
      env.poll = .response st stx (some raw) → statusOk st = true →
      nextJobApiEndpointResponseSchema raw = some (Job.lidar x y u) →
      env.cassiniOutcome = some (code, out, err) → code ≠ 0 →
      ∀ args, Effect.exec "tar" args ∉ (getAndHandleNextJob env).effects := by
  intro env st stx raw x y u code out err hp hok hd hc hcz args
  have h := handleLidarJob_no_tar env x y u code out err hc hcz args
  simpa [getAndHandleNextJob, hp, hok, hd] using h

/-- C4 witness: with cassini exiting 1 on the concrete lidar job, no tar
invocation is emitted. -/
theorem C4_witness :
    Effect.exec "tar" ["-cjvf", "lidar-step/42_7.tar.bz2", "lidar-step/42_7"]
      ∉ (getAndHandleNextJob envLidarCassiniFail).effects :=
  C4_nonzero_tool_exit_skips_archiver envLidarCassiniFail 200 "OK" lidarJobDoc
    42 7 "https://example.com/tiles/42_7.bin" 1 [] [101]
    rfl rfl rfl rfl (by decide) _

/-- C6: for the lidar job with tileUrl
https://example.com/tiles/42_7.bin and coordinates 42, 7, the derived
input filename is 42_7.bin stored under lidar-files/, the output
directory is lidar-step/42_7 and the archive path is
lidar-step/42_7.tar.bz2; in general the filename is the final path
segment of tileUrl and the output directory is lidar-step/x_y. -/
theorem C6_derived_paths :
    tileFileName "https://example.com/tiles/42_7.bin" = "42_7.bin"
  ∧ pjoin "lidar-files" (tileFileName "https://example.com/tiles/42_7.bin")
      = "lidar-files/42_7.bin"
  ∧ outDirPath 42 7 = "lidar-step/42_7"
  ∧ (∀ outcome,
      (compressDir (outDirPath 42 7) "lidar-step" "42_7" outcome).1
        = "lidar-step/42_7.tar.bz2")
  ∧ (∀ url : String, tileFileName url = (jsSplitSlash url).getLastD "")
  ∧ (∀ x y : Int,
      outDirPath x y = "lidar-step/" ++ toString x ++ "_" ++ toString y) := by
  refine ⟨rfl, rfl, rfl, fun _ => rfl, fun url => ?_, fun x y => ?_⟩
  · unfold tileFileName
    rw [List.headD_eq_head?, List.head?_reverse, List.getLastD_eq_getLast?]
  · show ("lidar-step" ++ "/") ++ ((toString x ++ "_") ++ toString y) = _
    rw [show ("lidar-step" : String) ++ "/" = "lidar-step/" from rfl]
    simp only [← String.append_assoc]

/-- C9: when the target path already exists, createDirIfItDoenstExist
raises no error, changes nothing, and a second call after a first is a
no-op. -/
theorem C9_createDir_idempotent :
    (∀ (fs : Fs) (p : String), (fs.lookup p).isSome = true →
      createDirIfItDoenstExist fs p = (fs, []))
  ∧ (∀ (fs : Fs) (p : String),
      createDirIfItDoenstExist (createDirIfItDoenstExist fs p).1 p =
        ((createDirIfItDoenstExist fs p).1, [])) := by
  constructor
  · intro fs p h
    cases hl : fs.lookup p with
    | none => simp [hl] at h
    | some _ => simp [createDirIfItDoenstExist, hl]
  · intro fs p
    cases hl : fs.lookup p with
    | some v => simp [createDirIfItDoenstExist, hl]
    | none => simp [createDirIfItDoenstExist, hl, List.lookup]

/-- C9 witness: calling createDirIfItDoenstExist on an existing
directory returns the unchanged filesystem with no effects. -/
theorem C9_witness :
    createDirIfItDoenstExist [("lidar-files", FsNode.dir)] "lidar-files" =
      ([("lidar-files", FsNode.dir)], []) :=
  C9_createDir_idempotent.1 [("lidar-files", FsNode.dir)] "lidar-files" (by decide)

lemma lookup_cons_ne {β : Type} (key k : String) (v : β)
    (l : List (String × β)) (h : key ≠ k) :
    List.lookup key ((k, v) :: l) = List.lookup key l := by
  simp [List.lookup, beq_eq_false_iff_ne.mpr h]

/-- C2 counterexample: in a lidar cycle whose tile download fails, the
Error thrown by downloadFileToDisk is not caught anywhere and escapes
getAndHandleNextJob, refuting that every non-ConfigMissing failure is
caught at the cycle boundary. -/
theorem C2_counterexample :
    (getAndHandleNextJob envLidarDownloadFail).crash ≠ none
  ∧ (getAndHandleNextJob envLidarDownloadFail).crash =
      some (Crash.transferError "https://example.com/tiles/42_7.bin") :=
  ⟨by decide, rfl⟩

/-- C2 as amended: transport failure (non-ok status), decode failure and
a non-zero tool exit are handled and end the cycle with no exception,
while a transfer failure, a spawn failure of either child process
(docker or tar), a response.json() rejection, and a poll fetch rejection
are uncaught and propagate past getAndHandleNextJob. -/
theorem C2_failure_containment :
    (∀ (env : Env) (st : Nat) (stx : String) (b : Option Json),
       env.poll = .response st stx b → statusOk st = false →
       (getAndHandleNextJob env).crash = none)
  ∧ (∀ (env : Env) (st : Nat) (stx : String) (raw : Json),
       env.poll = .response st stx (some raw) → statusOk st = true →
       nextJobApiEndpointResponseSchema raw = none →
       (getAndHandleNextJob env).crash = none)
  ∧ (∀ (env : Env) (st : Nat) (stx : String) (raw : Json) (x y : Int)
       (u : String) (code : Int) (out err bytes : List Nat),
       env.poll = .response st stx (some raw) → statusOk st = true →
       nextJobApiEndpointResponseSchema raw = some (Job.lidar x y u) →
       env.tileBody = some bytes → env.cassiniOutcome = some (code, out, err) →
       code ≠ 0 → (getAndHandleNextJob env).crash = none)
  ∧ (∀ (env : Env) (st : Nat) (stx : String) (raw : Json) (x y : Int)
       (u : String),
       env.poll = .response st stx (some raw) → statusOk st = true →
       nextJobApiEndpointResponseSchema raw = some (Job.lidar x y u) →
       env.tileBody = none →
       (getAndHandleNextJob env).crash = some (Crash.transferError u))
  ∧ (∀ (env : Env) (st : Nat) (stx : String) (raw : Json) (x y : Int)
       (u : String) (bytes : List Nat),
       env.poll = .response st stx (some raw) → statusOk st = true →
       nextJobApiEndpointResponseSchema raw = some (Job.lidar x y u) →
       env.tileBody = some bytes → env.cassiniOutcome = none →
       (getAndHandleNextJob env).crash = some (Crash.spawnError "docker"))
  ∧ (∀ (env : Env) (st : Nat) (stx : String) (raw : Json) (x y : Int)
       (u : String) (out err bytes : List Nat),
       env.poll = .response st stx (some raw) → statusOk st = true →
       nextJobApiEndpointResponseSchema raw = some (Job.lidar x y u) →
       env.tileBody = some bytes → env.cassiniOutcome = some (0, out, err) →
       env.tarOutcome = none →
       (getAndHandleNextJob env).crash = some (Crash.spawnError "tar"))
  ∧ (∀ (env : Env) (st : Nat) (stx : String),
       env.poll = .response st stx none → statusOk st = true →
       (getAndHandleNextJob env).crash = some Crash.jsonBodyError)
  ∧ (∀ env : Env, env.poll = .fetchError →
       (getAndHandleNextJob env).crash = some Crash.pollFetchError) := by
  refine ⟨?_, ?_, ?_, ?_, ?_, ?_, ?_, ?_⟩
  · intro env st stx b hp hok
    simp [getAndHandleNextJob, hp, hok]
  · intro env st stx raw hp hok hd
    simp [getAndHandleNextJob, hp, hok, hd]
  · intro env st stx raw x y u code out err bytes hp hok hd htb hc hcz
    rw [show (getAndHandleNextJob env).crash = (handleLidarJob env x y u).crash by
      simp [getAndHandleNextJob, hp, hok, hd]]
    rw [handleLidarJob_crash]
    simp [htb, hc, hcz]
  · intro env st stx raw x y u hp hok hd htb
    rw [show (getAndHandleNextJob env).crash = (handleLidarJob env x y u).crash by
      simp [getAndHandleNextJob, hp, hok, hd]]
    rw [handleLidarJob_crash]
    simp [htb]
  · intro env st stx raw x y u bytes hp hok hd htb hc
    rw [show (getAndHandleNextJob env).crash = (handleLidarJob env x y u).crash by
      simp [getAndHandleNextJob, hp, hok, hd]]
    rw [handleLidarJob_crash]
    simp [htb, hc]
  · intro env st stx raw x y u out err bytes hp hok hd htb hc ht
    rw [show (getAndHandleNextJob env).crash = (handleLidarJob env x y u).crash by
      simp [getAndHandleNextJob, hp, hok, hd]]
    rw [handleLidarJob_crash]
    simp [htb, hc, ht]
  · intro env st stx hp hok
    simp [getAndHandleNextJob, hp, hok]
  · intro env hp
    simp [getAndHandleNextJob, hp]

/-- C2 witness: a 500 poll response ends the cycle with no exception. -/
theorem C2_witness : (getAndHandleNextJob envPoll500).crash = none :=
  C2_failure_containment.1 envPoll500 500 "Internal Server Error" none rfl rfl

/-- C5 counterexample: when the poll fetch itself rejects (network
error), the rejection escapes getAndHandleNextJob, refuting that every
transport failure ends the cycle without throwing past the boundary. -/
theorem C5_counterexample :
    (getAndHandleNextJob envFetchErr).crash ≠ none
  ∧ (getAndHandleNextJob envFetchErr).crash = some Crash.pollFetchError :=
  ⟨by decide, rfl⟩

/-- C5 as amended: a poll returning a non-success status ends the cycle
cleanly with no retry scheduled; a network error on the poll fetch also
schedules no retry but propagates as an uncaught exception. -/
theorem C5_transport_failure_no_retry :
    (∀ (env : Env) (st : Nat) (stx : String) (b : Option Json),
       env.poll = .response st stx b → statusOk st = false →
       (getAndHandleNextJob env).crash = none ∧ retryEffects env = [])
  ∧ (∀ env : Env, env.poll = .fetchError →
       retryEffects env = [] ∧
       (getAndHandleNextJob env).crash = some Crash.pollFetchError) := by
  constructor
  · intro env st stx b hp hok
    constructor <;> simp [getAndHandleNextJob, retryEffects, hp, hok, isRetryEffect]
  · intro env hp
    constructor <;> simp [getAndHandleNextJob, retryEffects, hp, isRetryEffect]

/-- C5 witness: the concrete 500 response ends the cycle with no crash
and no retry scheduled. -/
theorem C5_witness :
    (getAndHandleNextJob envPoll500).crash = none ∧ retryEffects envPoll500 = [] :=
  C5_transport_failure_no_retry.1 envPoll500 500 "Internal Server Error" none rfl rfl

/-- C7: the download destination is opened WITHOUT truncation
(Deno.open with create and write only), so downloading 2 bytes over an
existing 5-byte file leaves the 3 trailing bytes of the old content in
place — the resulting file is not the downloaded byte sequence. -/
theorem C7_download_keeps_remnant :
    (downloadFileToDisk fsWithOldTile "https://example.com/tiles/42_7.bin"
        "lidar-files/42_7.bin" (some [9, 9])).1.lookup "lidar-files/42_7.bin"
      = some (FsNode.file [9, 9, 3, 4, 5])
  ∧ ([9, 9, 3, 4, 5] : List Nat) ≠ [9, 9] :=
  ⟨rfl, by decide⟩

/-- C8 counterexample: executeCommand returns only the exit code, so two
runs with the same code but different captured streams return the same
value to the caller, while the ExecutionResult of the spec contract
distinguishes them — the captured stdout and stderr bytes are not
carried to the caller. -/
theorem C8_counterexample :
    (executeCommand "docker" ["run"] (some (0, [1], [42]))).2 =
      (executeCommand "docker" ["run"] (some (0, [2], [43]))).2
  ∧ runSpec "docker" ["run"] (some (0, [1], [42])) ≠
      runSpec "docker" ["run"] (some (0, [2], [43])) := by
  refine ⟨rfl, fun h => ?_⟩
  simp [runSpec] at h

/-- C8 as amended: executeCommand never throws for a normal exit — it
returns the exit code whatever its value, logging rather than returning
the captured streams — and fails only when the command cannot be
spawned, surfaced as a distinct spawn error. -/
theorem C8_exit_code_returned :
    ∀ (cmd : String) (args : List String),
      (∀ (code : Int) (out err : List Nat),
        (executeCommand cmd args (some (code, out, err))).2 = Except.ok code)
    ∧ (executeCommand cmd args none).2 = Except.error (Crash.spawnError cmd) :=
  fun _ _ => ⟨fun _ _ _ => rfl, rfl⟩

/-- C10: a document matching one of the four job shapes that carries
additional unknown keys — at the top level or inside data — still
decodes to the corresponding typed Job carrying only the known fields:
zod object parsing silently drops the extra keys. -/
theorem C10_unknown_keys_dropped :
    ∀ (k kd : String) (v vd : Json) (x y z : Int) (u : String),
      k ≠ "type" → k ≠ "data" →
      ((isValidUrl u = true → kd ≠ "x" → kd ≠ "y" → kd ≠ "tileUrl" →
        nextJobApiEndpointResponseSchema
          (.obj [(k, v), ("type", .str "lidar"),
                 ("data", .obj [(kd, vd), ("x", .num x), ("y", .num y),
                                ("tileUrl", .str u)])])
          = some (Job.lidar x y u))
    ∧ (kd ≠ "x" → kd ≠ "y" →
        nextJobApiEndpointResponseSchema
          (.obj [(k, v), ("type", .str "render"),
                 ("data", .obj [(kd, vd), ("x", .num x), ("y", .num y)])])
          = some (Job.render x y))
    ∧ (kd ≠ "x" → kd ≠ "y" → kd ≠ "z" →
        nextJobApiEndpointResponseSchema
          (.obj [(k, v), ("type", .str "pyramid"),
                 ("data", .obj [(kd, vd), ("x", .num x), ("y", .num y),
                                ("z", .num z)])])
          = some (Job.pyramid x y z))
    ∧ nextJobApiEndpointResponseSchema
        (.obj [(k, v), ("type", .str "no-job-left")])
        = some Job.noJobLeft) := by
  intro k kd v vd x y z u hk1 hk2
  refine ⟨fun hu h1 h2 h3 => ?_, fun h1 h2 => ?_, fun h1 h2 h3 => ?_, ?_⟩
  · exact (decode_eq_lidar_iff _ x y u).mpr
      ⟨_, _, rfl,
       (lookup_cons_ne "type" k v _ (Ne.symm hk1)).trans rfl,
       (lookup_cons_ne "data" k v _ (Ne.symm hk2)).trans rfl,
       (lookup_cons_ne "x" kd vd _ (Ne.symm h1)).trans rfl,
       (lookup_cons_ne "y" kd vd _ (Ne.symm h2)).trans rfl,
       (lookup_cons_ne "tileUrl" kd vd _ (Ne.symm h3)).trans rfl, hu⟩
  · exact (decode_eq_render_iff _ x y).mpr
      ⟨_, _, rfl,
       (lookup_cons_ne "type" k v _ (Ne.symm hk1)).trans rfl,
       (lookup_cons_ne "data" k v _ (Ne.symm hk2)).trans rfl,
       (lookup_cons_ne "x" kd vd _ (Ne.symm h1)).trans rfl,
       (lookup_cons_ne "y" kd vd _ (Ne.symm h2)).trans rfl⟩
  · exact (decode_eq_pyramid_iff _ x y z).mpr
      ⟨_, _, rfl,
       (lookup_cons_ne "type" k v _ (Ne.symm hk1)).trans rfl,
       (lookup_cons_ne "data" k v _ (Ne.symm hk2)).trans rfl,
       (lookup_cons_ne "x" kd vd _ (Ne.symm h1)).trans rfl,
       (lookup_cons_ne "y" kd vd _ (Ne.symm h2)).trans rfl,
       (lookup_cons_ne "z" kd vd _ (Ne.symm h3)).trans rfl⟩
  · exact (decode_eq_noJob_iff _).mpr
      ⟨_, rfl, (lookup_cons_ne "type" k v _ (Ne.symm hk1)).trans rfl⟩

/-- C10 witness: a lidar document with an unknown top-level key and an
unknown key inside data decodes to the lidar job with only the known
fields. -/
theorem C10_witness :
    nextJobApiEndpointResponseSchema
      (.obj [("priority", .num 1), ("type", .str "lidar"),
             ("data", .obj [("note", .str "hi"), ("x", .num 42), ("y", .num 7),
                            ("tileUrl", .str "https://example.com/tiles/42_7.bin")])])
      = some (Job.lidar 42 7 "https://example.com/tiles/42_7.bin") :=
  (C10_unknown_keys_dropped "priority" "note" (.num 1) (.str "hi") 42 7 0
      "https://example.com/tiles/42_7.bin" (by decide) (by decide)).1 rfl
      (by decide) (by decide) (by decide)

end MapantWorker
